import Mathlib

/-!
Verification development for the event normalization + multi-backend
storage/query engine of `aws-serverless-product-analytics`.

The TypeScript sources are shallowly embedded:

* `packages/processor/src/function/index.ts` — `transformToDatabaseEvent`
  (the event normalizer) and `handler` (the Kinesis stream batch consumer).
* `packages/storage/src/dsql/adapter.ts` — the `DSQLAdapter` class
  (transactional insert plus the seven SQL read-aggregation operations).
* `packages/storage/src/clickhouse/adapter.ts` — the `ClickHouseAdapter`
  class (single-call insert plus the seven read-aggregation operations).

JavaScript truthiness (`x || y`, `x ? a : b`) is modelled explicitly:
`none` (absent / undefined / null), the empty string and the number `0`
are falsy.  External collaborators are modelled as parameters: the
`ua-parser-js` result (`uaParse`), `randomUUID` (`freshId`), `Date.now`
(`now`), payload decoding (`decode`), the ClickHouse `domain` builtin
(`chDomain`), ClickHouse quantile estimation (`chQuantile`) and JSONB
extraction (`jext`).  Timestamps are milliseconds since the epoch
(natural numbers); calendar dates are day indices (`day * 86400000` ms).
-/

/-- A JSON value, as produced by `JSON.parse` and consumed by
`JSON.stringify` in the processor. -/
inductive JsonValue where
  | null
  | bool (b : Bool)
  | num (n : Int)
  | str (s : String)
  | arr (elems : List JsonValue)
  | obj (fields : List (String × JsonValue))

/-- JavaScript truthiness of a JSON value: `null`, `false`, `0` and the
empty string are falsy; every array and object (including `\x7b\x7d`) is
truthy. -/
def JsonValue.truthy : JsonValue → Bool
  | .null => false
  | .bool b => b
  | .num n => n != 0
  | .str s => s != ""
  | .arr _ => true
  | .obj _ => true

/-- JSON string-literal rendering (quote and backslash escaped). -/
def jsonRenderString (s : String) : String :=
  "\"" ++ String.join (s.toList.map fun c =>
    if c = '"' then "\\\"" else if c = '\\' then "\\\\" else String.singleton c) ++ "\""

mutual

/-- Compact rendering of a JSON value, modelling `JSON.stringify`. -/
def JsonValue.render : JsonValue → String
  | .null => "null"
  | .bool true => "true"
  | .bool false => "false"
  | .num n => toString n
  | .str s => jsonRenderString s
  | .arr es => "[" ++ JsonValue.renderElems es ++ "]"
  | .obj fs => "\x7b" ++ JsonValue.renderFields fs ++ "\x7d"

/-- Comma-separated rendering of array elements. -/
def JsonValue.renderElems : List JsonValue → String
  | [] => ""
  | [v] => JsonValue.render v
  | v :: rest => JsonValue.render v ++ "," ++ JsonValue.renderElems rest

/-- Comma-separated rendering of object fields. -/
def JsonValue.renderFields : List (String × JsonValue) → String
  | [] => ""
  | [(k, v)] => jsonRenderString k ++ ":" ++ JsonValue.render v
  | (k, v) :: rest =>
      jsonRenderString k ++ ":" ++ JsonValue.render v ++ "," ++ JsonValue.renderFields rest

end

/-- The text form a JSON value takes when stored into a TEXT column:
strings keep their content, other values their rendering. -/
def JsonValue.asColumnText : JsonValue → String
  | .str s => s
  | v => v.render

/-- JavaScript `a || b` on optional strings: `undefined`/`null` and the
empty string fall through to `b`. -/
def jsOrStr : Option String → Option String → Option String
  | some s, b => if s = "" then b else some s
  | none, b => b

/-- JavaScript `a || null` on an optional number: `undefined`/`null` and
`0` give `null`. -/
def jsOrNullNat : Option Nat → Option Nat
  | some n => if n = 0 then none else some n
  | none => none

/-- JavaScript `a || b` on optional JSON values, using JSON truthiness. -/
def jsOrVal : Option JsonValue → Option JsonValue → Option JsonValue
  | some v, b => if v.truthy then some v else b
  | none, b => b

/-- Property lookup `props?.k` on the free-form properties object. -/
def lookupProp (props : Option (List (String × JsonValue))) (k : String) : Option JsonValue :=
  props.bind fun fs => (fs.find? fun kv => kv.1 = k).map (·.2)

/-- Resolution of one page field, embedding the processor lines
`event.context?.page?.X || (event.properties?.X as string) || null`. -/
def pageField (ctxVal : Option String) (propVal : Option JsonValue) : Option JsonValue :=
  jsOrVal (ctxVal.map .str) (jsOrVal propVal none)

/-- The `context.page` facet of a raw analytics event. -/
structure PageContext where
  url : Option String := none
  title : Option String := none
  path : Option String := none
  referrer : Option String := none
deriving DecidableEq, Repr

/-- The `context.screen` facet of a raw analytics event. -/
structure ScreenContext where
  width : Option Nat := none
  height : Option Nat := none
deriving DecidableEq, Repr

/-- The `context.geo` facet of a raw analytics event. -/
structure GeoContext where
  country : Option String := none
  city : Option String := none
  region : Option String := none
deriving DecidableEq, Repr

/-- The `context` of a raw analytics event. -/
structure EventContext where
  page : Option PageContext := none
  userAgent : Option String := none
  locale : Option String := none
  screen : Option ScreenContext := none
  ip : Option String := none
  geo : Option GeoContext := none
  receivedAt : Option Nat := none
deriving DecidableEq, Repr

/-- A raw analytics event (`AnalyticsEvent`), as decoded from a Kinesis
payload by `JSON.parse`.  The nominally required fields are `Option`s
because a decoded payload can lack them. -/
structure AnalyticsEvent where
  projectId : Option String := none
  eventType : Option String := none
  timestamp : Option Nat := none
  sessionId : Option String := none
  userId : Option String := none
  anonymousId : Option String := none
  properties : Option (List (String × JsonValue)) := none
  context : Option EventContext := none

/-- The result of `new UAParser(ua).getResult()` (external library
`ua-parser-js`), restricted to the fields the processor reads.  Fields
the parser cannot determine are `none` (or the empty string, which the
processor also treats as unparsed). -/
structure UAResult where
  browserName : Option String := none
  browserVersion : Option String := none
  osName : Option String := none
  osVersion : Option String := none
  deviceType : Option String := none
deriving DecidableEq, Repr

/-- The canonical stored event row (`DatabaseEvent`).  `event_time` is
`none` when the input timestamp was missing (JavaScript `Invalid Date`).
The four page fields hold the TEXT-column form of the resolved value
(the unchecked `as string` cast lets any JSON value through; the driver
persists its text form, `JsonValue.asColumnText`). -/
structure DatabaseEvent where
  event_id : String
  project_id : Option String
  event_type : Option String
  event_time : Option Nat
  session_id : Option String
  user_id : Option String
  anonymous_id : Option String
  page_url : Option String
  page_title : Option String
  page_path : Option String
  page_referrer : Option String
  user_agent : Option String
  browser_name : Option String
  browser_version : Option String
  os_name : Option String
  os_version : Option String
  device_type : Option String
  screen_width : Option Nat
  screen_height : Option Nat
  country : Option String
  city : Option String
  region : Option String
  ip_address : Option String
  locale : Option String
  properties : Option String
  received_at : Nat
deriving DecidableEq, Repr

/-- Embedding of `transformToDatabaseEvent`
(`packages/processor/src/function/index.ts`, lines 8–68).  `uaParse`
models the external `UAParser`, `freshId` the `randomUUID()` call and
`now` the `new Date()` calls.  The body of the source function contains
no throwing operation, so the embedding is a total function. -/
def transformToDatabaseEvent (uaParse : String → UAResult) (freshId : String) (now : Nat)
    (event : AnalyticsEvent) : DatabaseEvent :=
  let userAgent := jsOrStr (event.context.bind (·.userAgent)) none
  let uaFields : Option String × Option String × Option String × Option String × Option String :=
    match userAgent with
    | some ua =>
        let parsed := uaParse ua
        (jsOrStr parsed.browserName none, jsOrStr parsed.browserVersion none,
         jsOrStr parsed.osName none, jsOrStr parsed.osVersion none,
         jsOrStr parsed.deviceType (some "desktop"))
    | none => (none, none, none, none, none)
  let page := (event.context.bind (·.page))
  { event_id := freshId
    project_id := event.projectId
    event_type := event.eventType
    event_time := event.timestamp
    session_id := jsOrStr event.sessionId none
    user_id := jsOrStr event.userId none
    anonymous_id := jsOrStr event.anonymousId none
    page_url := (pageField (page.bind (·.url)) (lookupProp event.properties "url")).map
      (·.asColumnText)
    page_title := (pageField (page.bind (·.title)) (lookupProp event.properties "title")).map
      (·.asColumnText)
    page_path := (pageField (page.bind (·.path)) (lookupProp event.properties "path")).map
      (·.asColumnText)
    page_referrer := (pageField (page.bind (·.referrer))
      (lookupProp event.properties "referrer")).map (·.asColumnText)
    user_agent := userAgent
    browser_name := uaFields.1
    browser_version := uaFields.2.1
    os_name := uaFields.2.2.1
    os_version := uaFields.2.2.2.1
    device_type := uaFields.2.2.2.2
    screen_width := jsOrNullNat ((event.context.bind (·.screen)).bind (·.width))
    screen_height := jsOrNullNat ((event.context.bind (·.screen)).bind (·.height))
    country := jsOrStr ((event.context.bind (·.geo)).bind (·.country)) none
    city := jsOrStr ((event.context.bind (·.geo)).bind (·.city)) none
    region := jsOrStr ((event.context.bind (·.geo)).bind (·.region)) none
    ip_address := jsOrStr (event.context.bind (·.ip)) none
    locale := jsOrStr (event.context.bind (·.locale)) none
    properties := event.properties.map fun fs => JsonValue.render (.obj fs)
    received_at :=
      match event.context.bind (·.receivedAt) with
      | some t => if t = 0 then now else t
      | none => now }

/-- A user-agent parse with every field unknown, used to instantiate the
`uaParse` parameter at concrete inputs. -/
def uaParseNone : String → UAResult := fun _ => {}

instance {ε α : Type} [DecidableEq ε] [DecidableEq α] : DecidableEq (Except ε α) := fun x y =>
  match x, y with
  | .ok a, .ok b =>
      if h : a = b then isTrue (h ▸ rfl) else isFalse fun hc => h (Except.ok.inj hc)
  | .error a, .error b =>
      if h : a = b then isTrue (h ▸ rfl) else isFalse fun hc => h (Except.error.inj hc)
  | .ok _, .error _ => isFalse fun hc => Except.noConfusion hc
  | .error _, .ok _ => isFalse fun hc => Except.noConfusion hc

/-- Outcome of one stream-batch invocation of the processor `handler`:
the `insertEvents` calls it made and whether it returned or rethrew. -/
structure HandlerOutcome where
  insertCalls : List (List DatabaseEvent)
  result : Except String Unit
deriving DecidableEq, Repr

/-- The per-record loop of `handler` (lines 76–92): each record is
base64-decoded and `JSON.parse`d (modelled by `decode`; a failure of
either is caught, logged and the record skipped) and the surviving
events are transformed.  `gen i` models the `randomUUID()` drawn for the
`i`-th record. -/
def processRecords (uaParse : String → UAResult) (gen : Nat → String) (now : Nat)
    (decode : String → Option AnalyticsEvent) : List String → List DatabaseEvent
  | [] => []
  | r :: rest =>
    match decode r with
    | some ev =>
        transformToDatabaseEvent uaParse (gen 0) now ev
          :: processRecords uaParse (fun i => gen (i + 1)) now decode rest
    | none => processRecords uaParse (fun i => gen (i + 1)) now decode rest

/-- Embedding of the stream batch consumer `handler`
(`packages/processor/src/function/index.ts`, lines 70–109): decode and
transform every record, skipping failures; return early when no event
survived; otherwise make exactly one `insertEvents` call and rethrow its
error. -/
def handler (uaParse : String → UAResult) (gen : Nat → String) (now : Nat)
    (decode : String → Option AnalyticsEvent)
    (insertEvents : List DatabaseEvent → Except String Unit)
    (records : List String) : HandlerOutcome :=
  let databaseEvents := processRecords uaParse gen now decode records
  if databaseEvents.isEmpty then
    { insertCalls := [], result := .ok () }
  else
    match insertEvents databaseEvents with
    | .ok _ => { insertCalls := [databaseEvents], result := .ok () }
    | .error e => { insertCalls := [databaseEvents], result := .error e }

/-- The row-at-a-time insert loop of `DSQLAdapter.insertEvents`
(lines 55–84): rows are staged inside the open transaction until the
backend rejects one; `rowError` models the backend outcome of one
parameterized INSERT.  The first rejection aborts the loop with that
error; otherwise all rows are staged in order. -/
def insertLoop (rowError : DatabaseEvent → Option String) :
    List DatabaseEvent → Except String (List DatabaseEvent)
  | [] => .ok []
  | e :: rest =>
    match rowError e with
    | some err => .error err
    | none =>
      match insertLoop rowError rest with
      | .ok staged => .ok (e :: staged)
      | .error err => .error err

/-- Embedding of `DSQLAdapter.insertEvents` (lines 33–93): `BEGIN`, the
row loop, then `COMMIT` on success (the staged rows become visible) or
`ROLLBACK` on any row failure (the committed store is unchanged) with
the caught error rethrown.  The committed table is `store`; the result
pairs the table after the call with the call outcome. -/
def DSQLAdapter.insertEvents (rowError : DatabaseEvent → Option String)
    (store : List DatabaseEvent) (events : List DatabaseEvent) :
    List DatabaseEvent × Except String Unit :=
  match insertLoop rowError events with
  | .ok staged => (store ++ staged, .ok ())
  | .error e => (store, .error e)

/-- Embedding of `ClickHouseAdapter.insertEvents` (lines 44–81): the
rows are field-for-field remapped and passed to a single
`client.insert` call.  The external client call is modelled by
`chInsert` as an atomic write: on success all rows become visible, on
failure none do and the error propagates uncaught. -/
def ClickHouseAdapter.insertEvents (chInsert : List DatabaseEvent → Except String Unit)
    (store : List DatabaseEvent) (events : List DatabaseEvent) :
    List DatabaseEvent × Except String Unit :=
  match chInsert events with
  | .ok _ => (store ++ events, .ok ())
  | .error e => (store, .error e)

/-- Milliseconds per calendar day. -/
def msPerDay : Nat := 86400000

/-- Milliseconds per hour. -/
def msPerHour : Nat := 3600000

/-- The query filter object (`QueryFilters`) consumed by every read
operation of both adapters.  `startDate` and `endDate` are calendar-day
indices (the `::date` / `Date` parameters of the SQL). -/
structure QueryFilters where
  projectId : String
  startDate : Nat
  endDate : Nat
  eventType : Option String := none
  userId : Option String := none
  sessionId : Option String := none
  pagePath : Option String := none
  country : Option String := none
deriving DecidableEq, Repr

/-- SQL `COUNT(DISTINCT col)` / ClickHouse `uniq(col)`: the number of distinct non-null
values (both engines skip NULLs when aggregating a nullable column). -/
def distinctCount (xs : List (Option String)) : Nat :=
  (xs.filterMap id).dedup.length

/-- Result shape of `getOverview`. -/
structure OverviewMetrics where
  totalEvents : Nat
  totalPageviews : Nat
  uniqueSessions : Nat
  uniqueVisitors : Nat
  uniqueUsers : Nat
deriving DecidableEq, Repr

/-- Result shape of `getPageViews`. -/
structure PageViewStat where
  path : String
  title : Option String
  pageviews : Nat
  uniqueSessions : Nat
  uniqueVisitors : Nat
deriving DecidableEq, Repr

/-- Result shape of `getReferrers`. -/
structure ReferrerStat where
  referrerDomain : String
  visits : Nat
  uniqueSessions : Nat
deriving DecidableEq, Repr

/-- One device-type entry of `getDeviceStats`. -/
structure DeviceStat where
  deviceType : String
  count : Nat
  uniqueSessions : Nat
deriving DecidableEq, Repr

/-- One browser entry of `getDeviceStats`. -/
structure BrowserStat where
  browserName : String
  browserVersion : Option String
  count : Nat
deriving DecidableEq, Repr

/-- One operating-system entry of `getDeviceStats`. -/
structure OSStat where
  osName : String
  osVersion : Option String
  count : Nat
deriving DecidableEq, Repr

/-- Result shape of `getDeviceStats`. -/
structure DeviceStats where
  devices : List DeviceStat
  browsers : List BrowserStat
  operatingSystems : List OSStat
deriving DecidableEq, Repr

/-- Result shape of `getGeoStats`. -/
structure GeoStat where
  country : String
  city : Option String
  pageviews : Nat
  uniqueSessions : Nat
  uniqueVisitors : Nat
deriving DecidableEq, Repr

/-- Result shape of `getTimeSeries` (bucket start in ms). -/
structure TimeSeriesPoint where
  time : Nat
  events : Nat
  pageviews : Nat
  uniqueSessions : Nat
  uniqueVisitors : Nat
deriving DecidableEq, Repr

/-- Result shape of `getWebVitals` (the group key `metric` is the JSONB
extraction result, NULL when the blob lacks the key). -/
structure WebVitalMetric where
  metric : Option String
  p50 : Rat
  p75 : Rat
  p95 : Rat
  p99 : Rat
  goodCount : Nat
  needsImprovementCount : Nat
  poorCount : Nat
deriving DecidableEq, Repr

/-- The DSQL time-range predicate
`event_time >= $start::date AND event_time < ($end::date + INTERVAL '1 day')`
(NULL fails every SQL comparison). -/
def inDsqlRange (f : QueryFilters) (t : Option Nat) : Bool :=
  match t with
  | some ms => decide (f.startDate * msPerDay ≤ ms) && decide (ms < (f.endDate + 1) * msPerDay)
  | none => false

/-- The WHERE clause shared by every DSQL read query: exactly
`project_id = $1` and the day range — no other filter field is bound. -/
def dsqlBase (f : QueryFilters) (r : DatabaseEvent) : Bool :=
  (r.project_id == some f.projectId) && inDsqlRange f r.event_time

/-- The row set a DSQL read query ranges over. -/
def dsqlRows (f : QueryFilters) (store : List DatabaseEvent) : List DatabaseEvent :=
  store.filter (dsqlBase f)

/-- The ClickHouse time-range predicate
`date BETWEEN \x7bstartDate:Date\x7d AND \x7bendDate:Date\x7d` on the
materialized calendar-day column. -/
def inChRange (f : QueryFilters) (t : Option Nat) : Bool :=
  match t with
  | some ms => decide (f.startDate ≤ ms / msPerDay) && decide (ms / msPerDay ≤ f.endDate)
  | none => false

/-- The WHERE clause shared by every ClickHouse read query: exactly the
project match and the day range — no other filter field is bound. -/
def chBase (f : QueryFilters) (r : DatabaseEvent) : Bool :=
  (r.project_id == some f.projectId) && inChRange f r.event_time

/-- The row set a ClickHouse read query ranges over. -/
def chRows (f : QueryFilters) (store : List DatabaseEvent) : List DatabaseEvent :=
  store.filter (chBase f)

/-- Descending sort by a numeric measure, modelling `ORDER BY count DESC`. -/
def sortDescBy {α : Type} (measure : α → Nat) (l : List α) : List α :=
  List.insertionSort (fun a b => measure b ≤ measure a) l

/-- Shared aggregation of `getOverview` (both adapters compute the same
five aggregates over their filtered row set). -/
def overviewOfRows (rows : List DatabaseEvent) : OverviewMetrics :=
  { totalEvents := rows.length
    totalPageviews := (rows.filter fun r => r.event_type == some "pageview").length
    uniqueSessions := distinctCount (rows.map (·.session_id))
    uniqueVisitors := distinctCount (rows.map (·.anonymous_id))
    uniqueUsers := distinctCount (rows.map (·.user_id)) }

/-- Embedding of `DSQLAdapter.getOverview` (lines 94–129). -/
def DSQLAdapter.getOverview (store : List DatabaseEvent) (f : QueryFilters) : OverviewMetrics :=
  overviewOfRows (dsqlRows f store)

/-- Embedding of `ClickHouseAdapter.getOverview` (lines 87–120). -/
def ClickHouseAdapter.getOverview (store : List DatabaseEvent) (f : QueryFilters) :
    OverviewMetrics :=
  overviewOfRows (chRows f store)

/-- Shared aggregation of `getPageViews`: pageview rows with a non-null
path, grouped by path, ordered by view count descending, truncated.
`pickTitle` is the dialect difference: `MAX(page_title)` (DSQL) versus
`any(page_title)` (ClickHouse). -/
def pageViewsOfRows (pickTitle : List DatabaseEvent → Option String)
    (rows : List DatabaseEvent) (limit : Nat) : List PageViewStat :=
  let pvRows := rows.filter fun r => r.event_type == some "pageview" && r.page_path.isSome
  let keys := (pvRows.filterMap (·.page_path)).dedup
  let stats := keys.map fun k =>
    let g := pvRows.filter fun r => r.page_path == some k
    { path := k, title := pickTitle g, pageviews := g.length,
      uniqueSessions := distinctCount (g.map (·.session_id)),
      uniqueVisitors := distinctCount (g.map (·.anonymous_id)) : PageViewStat }
  (sortDescBy (·.pageviews) stats).take limit

/-- SQL `MAX(page_title)`: the greatest non-null title. -/
def dsqlMaxTitle (g : List DatabaseEvent) : Option String :=
  (g.filterMap (·.page_title)).max?

/-- ClickHouse `any(page_title)`: the first non-null title encountered. -/
def chAnyTitle (g : List DatabaseEvent) : Option String :=
  (g.filterMap (·.page_title)).head?

/-- Embedding of `DSQLAdapter.getPageViews` (lines 131–170). -/
def DSQLAdapter.getPageViews (store : List DatabaseEvent) (f : QueryFilters) (limit : Nat) :
    List PageViewStat :=
  pageViewsOfRows dsqlMaxTitle (dsqlRows f store) limit

/-- Embedding of `ClickHouseAdapter.getPageViews` (lines 122–152). -/
def ClickHouseAdapter.getPageViews (store : List DatabaseEvent) (f : QueryFilters) (limit : Nat) :
    List PageViewStat :=
  pageViewsOfRows chAnyTitle (chRows f store) limit

/-- The DSQL referrer key (lines 178–182):
`CASE WHEN page_referrer ~ '^https?://([^/]+)' THEN substring(...)
ELSE page_referrer END` — the host segment after an `http://` or
`https://` scheme when the pattern matches, otherwise the whole stored
referrer value. -/
def referrerDomainDSQL (s : String) : String :=
  let cs := s.toList
  let tail :=
    if cs.take 7 = "http://".toList then some (cs.drop 7)
    else if cs.take 8 = "https://".toList then some (cs.drop 8)
    else none
  match tail with
  | some t =>
    let host := t.takeWhile fun c => c != '/'
    if host.isEmpty then s else String.mk host
  | none => s

/-- Shared aggregation of `getReferrers`: pageview rows with a non-null,
non-empty referrer, grouped by `domainFn` of the referrer, ordered by
visit count descending, truncated. -/
def referrersOfRows (domainFn : String → String) (rows : List DatabaseEvent) (limit : Nat) :
    List ReferrerStat :=
  let refRows := rows.filter fun r =>
    r.event_type == some "pageview" &&
      match r.page_referrer with
      | some s => s != ""
      | none => false
  let keyed := refRows.map fun r => (domainFn (r.page_referrer.getD ""), r)
  let keys := (keyed.map (·.1)).dedup
  let stats := keys.map fun k =>
    let g := (keyed.filter fun p => p.1 == k).map (·.2)
    { referrerDomain := k, visits := g.length,
      uniqueSessions := distinctCount (g.map (·.session_id)) : ReferrerStat }
  (sortDescBy (·.visits) stats).take limit

/-- Embedding of `DSQLAdapter.getReferrers` (lines 172–212). -/
def DSQLAdapter.getReferrers (store : List DatabaseEvent) (f : QueryFilters) (limit : Nat) :
    List ReferrerStat :=
  referrersOfRows referrerDomainDSQL (dsqlRows f store) limit

/-- Embedding of `ClickHouseAdapter.getReferrers` (lines 154–183);
`chDomain` models the external ClickHouse `domain()` builtin. -/
def ClickHouseAdapter.getReferrers (chDomain : String → String) (store : List DatabaseEvent)
    (f : QueryFilters) (limit : Nat) : List ReferrerStat :=
  referrersOfRows chDomain (chRows f store) limit

/-- Shared aggregation of `getDeviceStats`: three independent grouped
counts over pageview rows with a non-null grouping key; browser and OS
lists capped at the top 10 by count. -/
def deviceStatsOfRows (rows : List DatabaseEvent) : DeviceStats :=
  let pv := rows.filter fun r => r.event_type == some "pageview"
  let dRows := pv.filter (·.device_type.isSome)
  let dKeys := (dRows.filterMap (·.device_type)).dedup
  let devices := sortDescBy (·.count) <| dKeys.map fun k =>
    let g := dRows.filter fun r => r.device_type == some k
    { deviceType := k, count := g.length,
      uniqueSessions := distinctCount (g.map (·.session_id)) : DeviceStat }
  let bRows := pv.filter (·.browser_name.isSome)
  let bKeys := (bRows.map fun r => (r.browser_name.getD "", r.browser_version)).dedup
  let browsers := (sortDescBy (·.count) <| bKeys.map fun k =>
    let g := bRows.filter fun r => (r.browser_name.getD "", r.browser_version) == k
    { browserName := k.1, browserVersion := k.2, count := g.length : BrowserStat }).take 10
  let oRows := pv.filter (·.os_name.isSome)
  let oKeys := (oRows.map fun r => (r.os_name.getD "", r.os_version)).dedup
  let operatingSystems := (sortDescBy (·.count) <| oKeys.map fun k =>
    let g := oRows.filter fun r => (r.os_name.getD "", r.os_version) == k
    { osName := k.1, osVersion := k.2, count := g.length : OSStat }).take 10
  { devices := devices, browsers := browsers, operatingSystems := operatingSystems }

/-- Embedding of `DSQLAdapter.getDeviceStats` (lines 214–293). -/
def DSQLAdapter.getDeviceStats (store : List DatabaseEvent) (f : QueryFilters) : DeviceStats :=
  deviceStatsOfRows (dsqlRows f store)

/-- Embedding of `ClickHouseAdapter.getDeviceStats` (lines 185–247). -/
def ClickHouseAdapter.getDeviceStats (store : List DatabaseEvent) (f : QueryFilters) :
    DeviceStats :=
  deviceStatsOfRows (chRows f store)

/-- Shared aggregation of `getGeoStats`: pageview rows with a non-null
country, grouped by (country, city), ordered by pageviews descending,
truncated. -/
def geoStatsOfRows (rows : List DatabaseEvent) (limit : Nat) : List GeoStat :=
  let gRows := rows.filter fun r => r.event_type == some "pageview" && r.country.isSome
  let keys := (gRows.map fun r => (r.country.getD "", r.city)).dedup
  let stats := keys.map fun k =>
    let g := gRows.filter fun r => (r.country.getD "", r.city) == k
    { country := k.1, city := k.2, pageviews := g.length,
      uniqueSessions := distinctCount (g.map (·.session_id)),
      uniqueVisitors := distinctCount (g.map (·.anonymous_id)) : GeoStat }
  (sortDescBy (·.pageviews) stats).take limit

/-- Embedding of `DSQLAdapter.getGeoStats` (lines 295–334). -/
def DSQLAdapter.getGeoStats (store : List DatabaseEvent) (f : QueryFilters) (limit : Nat) :
    List GeoStat :=
  geoStatsOfRows (dsqlRows f store) limit

/-- Embedding of `ClickHouseAdapter.getGeoStats` (lines 249–279). -/
def ClickHouseAdapter.getGeoStats (store : List DatabaseEvent) (f : QueryFilters) (limit : Nat) :
    List GeoStat :=
  geoStatsOfRows (chRows f store) limit

/-- Time bucketing `date_trunc('hour'|'day', t)` / `toStartOfHour`/`toStartOfDay`. -/
def truncTime (hourly : Bool) (t : Nat) : Nat :=
  if hourly then t / msPerHour * msPerHour else t / msPerDay * msPerDay

/-- Shared aggregation of `getTimeSeries`: bucket `event_time` by the
granularity, one point per non-empty bucket, ascending by time. -/
def timeSeriesOfRows (hourly : Bool) (rows : List DatabaseEvent) : List TimeSeriesPoint :=
  let keys := (rows.filterMap fun r => r.event_time.map (truncTime hourly)).dedup
  let pts := keys.map fun k =>
    let g := rows.filter fun r => r.event_time.map (truncTime hourly) == some k
    { time := k, events := g.length,
      pageviews := (g.filter fun r => r.event_type == some "pageview").length,
      uniqueSessions := distinctCount (g.map (·.session_id)),
      uniqueVisitors := distinctCount (g.map (·.anonymous_id)) : TimeSeriesPoint }
  List.insertionSort (fun a b => a.time ≤ b.time) pts

/-- Embedding of `DSQLAdapter.getTimeSeries` (lines 336–376). -/
def DSQLAdapter.getTimeSeries (store : List DatabaseEvent) (f : QueryFilters) (hourly : Bool) :
    List TimeSeriesPoint :=
  timeSeriesOfRows hourly (dsqlRows f store)

/-- Embedding of `ClickHouseAdapter.getTimeSeries` (lines 281–312). -/
def ClickHouseAdapter.getTimeSeries (store : List DatabaseEvent) (f : QueryFilters)
    (hourly : Bool) : List TimeSeriesPoint :=
  timeSeriesOfRows hourly (chRows f store)

/-- SQL `PERCENTILE_CONT(p) WITHIN GROUP (ORDER BY v)`: linear interpolation
at rank `p * (n - 1)` of the sorted values. -/
def percentileCont (p : Rat) (xs : List Rat) : Rat :=
  let s := List.insertionSort (fun a b => a ≤ b) xs
  let n := s.length
  if n = 0 then 0
  else
    let rank : Rat := p * ((n - 1 : Nat) : Rat)
    let i : Nat := rank.floor.toNat
    let lo := s.getD i 0
    let hi := s.getD (min (i + 1) (n - 1)) 0
    lo + (rank - (i : Rat)) * (hi - lo)

/-- Ascending SQL ordering on a nullable group key. -/
def optStrLe (a b : Option String) : Bool :=
  match a, b with
  | none, _ => true
  | some _, none => false
  | some x, some y => decide (x ≤ y)

/-- Shared aggregation of `getWebVitals`: webvital rows grouped by the
`metric` extracted from the properties blob, with four percentiles of
the numeric `value` and the three rating-bucket counts, ordered by
metric.  `quant` is the dialect percentile estimator, `jext` the JSONB
field extraction (`properties->>k` / `JSONExtractString`), `toNum` the
text-to-number cast. -/
def webVitalsOfRows (quant : Rat → List Rat → Rat)
    (jext : Option String → String → Option String) (toNum : Option String → Rat)
    (rows : List DatabaseEvent) : List WebVitalMetric :=
  let wvRows := rows.filter fun r => r.event_type == some "webvital"
  let keys := (wvRows.map fun r => jext r.properties "metric").dedup
  let ms := keys.map fun k =>
    let g := wvRows.filter fun r => jext r.properties "metric" == k
    let vals := g.map fun r => toNum (jext r.properties "value")
    { metric := k,
      p50 := quant (1/2) vals, p75 := quant (3/4) vals,
      p95 := quant (19/20) vals, p99 := quant (99/100) vals,
      goodCount := (g.filter fun r => jext r.properties "rating" == some "good").length,
      needsImprovementCount :=
        (g.filter fun r => jext r.properties "rating" == some "needs-improvement").length,
      poorCount := (g.filter fun r => jext r.properties "rating" == some "poor").length
      : WebVitalMetric }
  List.insertionSort (fun a b => optStrLe a.metric b.metric = true) ms

/-- Embedding of `DSQLAdapter.getWebVitals` (lines 378–420), using exact
`PERCENTILE_CONT` interpolation. -/
def DSQLAdapter.getWebVitals (jext : Option String → String → Option String)
    (toNum : Option String → Rat) (store : List DatabaseEvent) (f : QueryFilters) :
    List WebVitalMetric :=
  webVitalsOfRows percentileCont jext toNum (dsqlRows f store)

/-- Embedding of `ClickHouseAdapter.getWebVitals` (lines 314–344);
`chQuantile` models the external approximate `quantile` combinator. -/
def ClickHouseAdapter.getWebVitals (chQuantile : Rat → List Rat → Rat)
    (jext : Option String → String → Option String) (toNum : Option String → Rat)
    (store : List DatabaseEvent) (f : QueryFilters) : List WebVitalMetric :=
  webVitalsOfRows chQuantile jext toNum (chRows f store)

/-- A stored row for project `p1`: a pageview on day 0 with every
optional column null. -/
def baseRow : DatabaseEvent :=
  { event_id := "e0", project_id := some "p1", event_type := some "pageview",
    event_time := some 1000, session_id := none, user_id := none, anonymous_id := none,
    page_url := none, page_title := none, page_path := none, page_referrer := none,
    user_agent := none, browser_name := none, browser_version := none,
    os_name := none, os_version := none, device_type := none,
    screen_width := none, screen_height := none,
    country := none, city := none, region := none, ip_address := none, locale := none,
    properties := none, received_at := 0 }

/-- Day-0 filter over project `p1` with no optional fields. -/
def filterPlain : QueryFilters :=
  { projectId := "p1", startDate := 0, endDate := 0 }

/-- Day-0 filter over project `p1` asking for `eventType = "click"`. -/
def filterClick : QueryFilters :=
  { projectId := "p1", startDate := 0, endDate := 0, eventType := some "click" }

/-- A pageview row whose referrer is a URL with a non-http scheme. -/
def refRow : DatabaseEvent :=
  { baseRow with page_referrer := some "android-app://com.example/x" }

/-- A raw event missing `projectId` (the other required fields present). -/
def eventMissingProject : AnalyticsEvent :=
  { eventType := some "pageview", timestamp := some 1000 }

/-- A raw event carrying an explicitly empty properties object. -/
def eventEmptyProps : AnalyticsEvent :=
  { projectId := some "p1", eventType := some "custom", timestamp := some 1000,
    properties := some [] }

/-- A raw event whose `context.page.path` is the empty string while
`properties.path` is `"/b"`. -/
def eventCtxEmptyPath : AnalyticsEvent :=
  { projectId := some "p1", eventType := some "pageview", timestamp := some 0,
    properties := some [("path", .str "/b")],
    context := some { page := some { path := some "" } } }

/-- A raw event carrying a (non-empty) user-agent string. -/
def eventWithUA : AnalyticsEvent :=
  { projectId := some "p1", eventType := some "pageview", timestamp := some 0,
    context := some { userAgent := some "SomeBot/1.0" } }

/-- A decodable raw event used by the handler witness. -/
def eventOk : AnalyticsEvent :=
  { projectId := some "p1", eventType := some "pageview", timestamp := some 1000 }

/-- A concrete decoder: the payload `"ok"` decodes, everything else is
malformed. -/
def decode0 : String → Option AnalyticsEvent :=
  fun s => if s = "ok" then some eventOk else none

/-- A concrete id generator for witnesses. -/
def gen0 : Nat → String := fun i => "id" ++ toString i

/-- A second stored row, marked so that `rowErr0` rejects it. -/
def badRow : DatabaseEvent := { baseRow with event_id := "bad" }

/-- A concrete backend failure model: the row with id `"bad"` violates a
constraint, every other row persists. -/
def rowErr0 : DatabaseEvent → Option String :=
  fun r => if r.event_id = "bad" then some "duplicate key" else none

/-- C1, counterexample.  The claim says `transformToDatabaseEvent` fails
with a `ValidationError` whenever `projectId`, `eventType` or
`timestamp` is missing.  The source function performs no validation and
contains no throwing operation (its embedding is a total function): on
an input missing `projectId` it returns a row normally, copying the
missing field through as null instead of failing. -/
theorem c1_counterexample :
    eventMissingProject.projectId = none ∧
    (transformToDatabaseEvent uaParseNone "id0" 5 eventMissingProject).project_id = none ∧
    (transformToDatabaseEvent uaParseNone "id0" 5 eventMissingProject).event_type
      = some "pageview" := by
  refine ⟨rfl, ?_, ?_⟩ <;> rfl

/-- C1, amended.  `transformToDatabaseEvent` never fails on any input —
also not on inputs missing `projectId`, `eventType` or `timestamp`: it
performs no validation and copies the three fields through unchanged
(null when missing), so malformed or missing fields never raise a
`ValidationError`. -/
theorem c1_amended (uaParse : String → UAResult) (freshId : String) (now : Nat)
    (event : AnalyticsEvent) :
    (transformToDatabaseEvent uaParse freshId now event).project_id = event.projectId ∧
    (transformToDatabaseEvent uaParse freshId now event).event_type = event.eventType ∧
    (transformToDatabaseEvent uaParse freshId now event).event_time = event.timestamp :=
  ⟨rfl, rfl, rfl⟩

/-- C5, counterexample.  The claim says an empty properties object is
stored as null.  In the source, `event.properties ? JSON.stringify(...)
: null` tests JavaScript truthiness, and an empty object is truthy: the
row stores the string rendering of the empty object, not null. -/
theorem c5_counterexample :
    eventEmptyProps.properties = some [] ∧
    (transformToDatabaseEvent uaParseNone "id0" 5 eventEmptyProps).properties
      = some "\x7b\x7d" ∧
    (transformToDatabaseEvent uaParseNone "id0" 5 eventEmptyProps).properties ≠ none := by
  refine ⟨rfl, rfl, ?_⟩
  decide

/-- C5, amended.  The normalized row's `properties` field is the JSON
serialization of the input's properties map whenever that map is
present — including the empty object, which stores the serialization of
the empty object — and is null exactly when the map is absent. -/
theorem c5_amended (uaParse : String → UAResult) (freshId : String) (now : Nat)
    (event : AnalyticsEvent) (fs : List (String × JsonValue)) :
    (transformToDatabaseEvent uaParse freshId now
        { event with properties := some fs }).properties
      = some (JsonValue.render (.obj fs)) ∧
    (transformToDatabaseEvent uaParse freshId now
        { event with properties := none }).properties = none :=
  ⟨rfl, rfl⟩

/-- C6, counterexample.  The claim says the `context.page` value wins
whenever the field is present there.  The source resolves with
JavaScript `||`, for which the empty string is falsy: here
`context.page.path` is present (the empty string) yet the row takes
`properties.path`. -/
theorem c6_counterexample :
    (eventCtxEmptyPath.context.bind (·.page)).bind (·.path) = some "" ∧
    lookupProp eventCtxEmptyPath.properties "path" = some (.str "/b") ∧
    (transformToDatabaseEvent uaParseNone "id0" 0 eventCtxEmptyPath).page_path = some "/b" := by
  refine ⟨rfl, rfl, rfl⟩

/-- C6, amended.  Each of the four page fields resolves by JavaScript
truthiness: a non-empty `context.page` value wins over any `properties`
value; a `context.page` value that is absent or the empty string falls
through to the `properties` value, which is used when truthy and
otherwise yields null. -/
theorem c6_amended :
    (∀ (uaParse : String → UAResult) (freshId : String) (now : Nat) (event : AnalyticsEvent),
      (transformToDatabaseEvent uaParse freshId now event).page_url
          = (pageField ((event.context.bind (·.page)).bind (·.url))
              (lookupProp event.properties "url")).map (·.asColumnText) ∧
      (transformToDatabaseEvent uaParse freshId now event).page_title
          = (pageField ((event.context.bind (·.page)).bind (·.title))
              (lookupProp event.properties "title")).map (·.asColumnText) ∧
      (transformToDatabaseEvent uaParse freshId now event).page_path
          = (pageField ((event.context.bind (·.page)).bind (·.path))
              (lookupProp event.properties "path")).map (·.asColumnText) ∧
      (transformToDatabaseEvent uaParse freshId now event).page_referrer
          = (pageField ((event.context.bind (·.page)).bind (·.referrer))
              (lookupProp event.properties "referrer")).map (·.asColumnText)) ∧
    (∀ (s : String) (prop : Option JsonValue), s ≠ "" →
      pageField (some s) prop = some (.str s)) ∧
    (∀ prop : Option JsonValue, pageField (some "") prop = pageField none prop) ∧
    (∀ v : JsonValue, v.truthy = true → pageField none (some v) = some v) ∧
    (∀ v : JsonValue, v.truthy = false → pageField none (some v) = none) ∧
    pageField none none = none := by
  refine ⟨fun uaParse freshId now event => ⟨rfl, rfl, rfl, rfl⟩, ?_, ?_, ?_, ?_, rfl⟩
  · intro s prop h
    simp [pageField, jsOrVal, JsonValue.truthy, h]
  · intro prop
    simp [pageField, jsOrVal, JsonValue.truthy]
  · intro v h
    simp [pageField, jsOrVal, h]
  · intro v h
    simp [pageField, jsOrVal, h]

/-- C6 witness: with `context.page.path = "/a"` present and non-empty,
the context value wins over the conflicting `properties` value `"/b"`. -/
theorem c6_amended_witness :
    pageField (some "/a") (some (.str "/b")) = some (.str "/a") :=
  c6_amended.2.1 "/a" (some (.str "/b")) (by decide)

/-- C9.  Normalization maps an empty-string `sessionId`, `userId` or
`anonymousId` to null, producing the very same row as the input with
that field absent — after normalization the two are indistinguishable. -/
theorem c9_empty_ids_as_absent (uaParse : String → UAResult) (freshId : String) (now : Nat)
    (event : AnalyticsEvent) :
    (transformToDatabaseEvent uaParse freshId now
        { event with sessionId := some "" }).session_id = none ∧
    (transformToDatabaseEvent uaParse freshId now
        { event with userId := some "" }).user_id = none ∧
    (transformToDatabaseEvent uaParse freshId now
        { event with anonymousId := some "" }).anonymous_id = none ∧
    transformToDatabaseEvent uaParse freshId now { event with sessionId := some "" }
      = transformToDatabaseEvent uaParse freshId now { event with sessionId := none } ∧
    transformToDatabaseEvent uaParse freshId now { event with userId := some "" }
      = transformToDatabaseEvent uaParse freshId now { event with userId := none } ∧
    transformToDatabaseEvent uaParse freshId now { event with anonymousId := some "" }
      = transformToDatabaseEvent uaParse freshId now { event with anonymousId := none } :=
  ⟨rfl, rfl, rfl, rfl, rfl, rfl⟩

/-- C10.  A `context.screen` dimension equal to `0` is stored as null,
exactly as when the dimension is absent; a `context.receivedAt` equal to
`0` is replaced by the current server time, exactly as when it is
absent. -/
theorem c10_zero_as_absent (uaParse : String → UAResult) (freshId : String) (now : Nat)
    (event : AnalyticsEvent) (c : EventContext) (s : ScreenContext) :
    (transformToDatabaseEvent uaParse freshId now
        { event with context := some { c with screen := some { s with width := some 0 } } }
      ).screen_width = none ∧
    (transformToDatabaseEvent uaParse freshId now
        { event with context := some { c with screen := some { s with height := some 0 } } }
      ).screen_height = none ∧
    (transformToDatabaseEvent uaParse freshId now
        { event with context := some { c with screen := none } }).screen_width = none ∧
    (transformToDatabaseEvent uaParse freshId now
        { event with context := some { c with screen := none } }).screen_height = none ∧
    (transformToDatabaseEvent uaParse freshId now
        { event with context := some { c with receivedAt := some 0 } }).received_at = now ∧
    (transformToDatabaseEvent uaParse freshId now
        { event with context := some { c with receivedAt := none } }).received_at = now :=
  ⟨rfl, rfl, rfl, rfl, rfl, rfl⟩

/-- C7.  When the event carries a user-agent string (the source tests
JavaScript truthiness: a present, non-empty `context.userAgent`), each
browser/OS sub-field the parser cannot determine is null individually
and `device_type` defaults to `"desktop"` when the parser cannot
classify a device; when no user-agent string is carried, all five
device-facet fields are null. -/
theorem c7_device_defaults (uaParse : String → UAResult) (freshId : String) (now : Nat)
    (event : AnalyticsEvent) :
    (∀ u, jsOrStr (event.context.bind (·.userAgent)) none = some u →
      (((uaParse u).deviceType = none ∨ (uaParse u).deviceType = some "") →
        (transformToDatabaseEvent uaParse freshId now event).device_type = some "desktop") ∧
      (((uaParse u).browserName = none ∨ (uaParse u).browserName = some "") →
        (transformToDatabaseEvent uaParse freshId now event).browser_name = none) ∧
      (((uaParse u).browserVersion = none ∨ (uaParse u).browserVersion = some "") →
        (transformToDatabaseEvent uaParse freshId now event).browser_version = none) ∧
      (((uaParse u).osName = none ∨ (uaParse u).osName = some "") →
        (transformToDatabaseEvent uaParse freshId now event).os_name = none) ∧
      (((uaParse u).osVersion = none ∨ (uaParse u).osVersion = some "") →
        (transformToDatabaseEvent uaParse freshId now event).os_version = none)) ∧
    (jsOrStr (event.context.bind (·.userAgent)) none = none →
      (transformToDatabaseEvent uaParse freshId now event).browser_name = none ∧
      (transformToDatabaseEvent uaParse freshId now event).browser_version = none ∧
      (transformToDatabaseEvent uaParse freshId now event).os_name = none ∧
      (transformToDatabaseEvent uaParse freshId now event).os_version = none ∧
      (transformToDatabaseEvent uaParse freshId now event).device_type = none) := by
  constructor
  · intro u hu
    refine ⟨?_, ?_, ?_, ?_, ?_⟩ <;>
      · intro hd
        rcases hd with hd | hd <;>
          · simp only [transformToDatabaseEvent]
            rw [hu]
            simp [jsOrStr, hd]
  · intro hu
    refine ⟨?_, ?_, ?_, ?_, ?_⟩ <;>
      · simp only [transformToDatabaseEvent]
        rw [hu]

/-- C7 witness: a concrete event with the user agent `"SomeBot/1.0"`
and a parser that recognizes nothing yields `device_type = "desktop"`
with a null `browser_name`. -/
theorem c7_device_defaults_witness :
    (transformToDatabaseEvent uaParseNone "id0" 0 eventWithUA).device_type = some "desktop" ∧
    (transformToDatabaseEvent uaParseNone "id0" 0 eventWithUA).browser_name = none :=
  ⟨((c7_device_defaults uaParseNone "id0" 0 eventWithUA).1 "SomeBot/1.0" rfl).1 (Or.inl rfl),
   ((c7_device_defaults uaParseNone "id0" 0 eventWithUA).1 "SomeBot/1.0" rfl).2.1 (Or.inl rfl)⟩

lemma insertLoop_ok_of_none (rowError : DatabaseEvent → Option String)
    (events : List DatabaseEvent) (h : ∀ e ∈ events, rowError e = none) :
    insertLoop rowError events = .ok events := by
  induction events with
  | nil => rfl
  | cons a l ih =>
    have ha : rowError a = none := h a (by simp)
    have hl : ∀ e ∈ l, rowError e = none := fun e he => h e (by simp [he])
    simp [insertLoop, ha, ih hl]

lemma insertLoop_error_of_some (rowError : DatabaseEvent → Option String)
    (events : List DatabaseEvent) (h : ∃ e ∈ events, (rowError e).isSome) :
    ∃ err, (∃ e ∈ events, rowError e = some err) ∧ insertLoop rowError events = .error err := by
  induction events with
  | nil => simp at h
  | cons a l ih =>
    cases ha : rowError a with
    | some err => exact ⟨err, ⟨a, by simp, ha⟩, by simp [insertLoop, ha]⟩
    | none =>
      have h2 : ∃ e ∈ l, (rowError e).isSome := by
        rcases h with ⟨e, he, hsome⟩
        rcases List.mem_cons.mp he with rfl | hel
        · rw [ha] at hsome
          simp at hsome
        · exact ⟨e, hel, hsome⟩
      rcases ih h2 with ⟨err, ⟨e, hel, hee⟩, hloop⟩
      refine ⟨err, ⟨e, by simp [hel], hee⟩, ?_⟩
      simp [insertLoop, ha, hloop]

/-- C3.  Batch insert is all-or-nothing in both adapters.  DSQL: if
every row persists, the whole batch is appended and the call succeeds;
if any row fails its constraint, the transaction is rolled back —
storage is unchanged — and the call fails with a row's backend error
propagated unmodified.  ClickHouse: the single atomic client insert
either appends the whole batch or leaves storage unchanged, its error
propagated unmodified. -/
theorem c3_insert_all_or_nothing (rowError : DatabaseEvent → Option String)
    (chInsert : List DatabaseEvent → Except String Unit)
    (store events : List DatabaseEvent) :
    ((∀ e ∈ events, rowError e = none) →
      DSQLAdapter.insertEvents rowError store events = (store ++ events, .ok ())) ∧
    ((∃ e ∈ events, (rowError e).isSome) →
      (DSQLAdapter.insertEvents rowError store events).1 = store ∧
      ∃ err, (∃ e ∈ events, rowError e = some err) ∧
        (DSQLAdapter.insertEvents rowError store events).2 = .error err) ∧
    (chInsert events = .ok () →
      ClickHouseAdapter.insertEvents chInsert store events = (store ++ events, .ok ())) ∧
    (∀ e, chInsert events = .error e →
      ClickHouseAdapter.insertEvents chInsert store events = (store, .error e)) := by
  refine ⟨?_, ?_, ?_, ?_⟩
  · intro h
    simp [DSQLAdapter.insertEvents, insertLoop_ok_of_none rowError events h]
  · intro h
    rcases insertLoop_error_of_some rowError events h with ⟨err, hmem, hloop⟩
    refine ⟨?_, err, hmem, ?_⟩ <;> simp [DSQLAdapter.insertEvents, hloop]
  · intro h
    simp [ClickHouseAdapter.insertEvents, h]
  · intro e h
    simp [ClickHouseAdapter.insertEvents, h]

/-- C3 witness: with a backend rejecting the row `"bad"`, a two-row
batch containing it leaves the empty store unchanged; the same batch
without it is fully inserted; a failing ClickHouse client insert leaves
the store unchanged and surfaces its error. -/
theorem c3_insert_all_or_nothing_witness :
    (DSQLAdapter.insertEvents rowErr0 [] [baseRow, badRow]).1 = [] ∧
    DSQLAdapter.insertEvents rowErr0 [] [baseRow] = ([baseRow], .ok ()) ∧
    ClickHouseAdapter.insertEvents (fun _ => Except.error "timeout") [] [baseRow]
      = ([], .error "timeout") :=
  ⟨((c3_insert_all_or_nothing rowErr0 (fun _ => .ok ()) [] [baseRow, badRow]).2.1
      (by decide)).1,
   (c3_insert_all_or_nothing rowErr0 (fun _ => .ok ()) [] [baseRow]).1 (by decide),
   (c3_insert_all_or_nothing rowErr0 (fun _ => Except.error "timeout") [] [baseRow]).2.2.2
     "timeout" rfl⟩

/-- C4.  The stream batch consumer: a record whose decode fails is
skipped without aborting the batch (and a decoded record contributes
exactly its transformed row); when no row survives, the handler returns
success without any insert call; otherwise it makes exactly one
`insertEvents` call carrying every surviving row, succeeds when that
call succeeds and rethrows its error when it fails. -/
theorem c4_handler_batch (uaParse : String → UAResult) (gen : Nat → String) (now : Nat)
    (decode : String → Option AnalyticsEvent)
    (insertFn : List DatabaseEvent → Except String Unit) (records : List String) :
    (processRecords uaParse gen now decode records = [] →
      handler uaParse gen now decode insertFn records
        = { insertCalls := [], result := .ok () }) ∧
    (processRecords uaParse gen now decode records ≠ [] →
      (handler uaParse gen now decode insertFn records).insertCalls
          = [processRecords uaParse gen now decode records] ∧
      (insertFn (processRecords uaParse gen now decode records) = .ok () →
        (handler uaParse gen now decode insertFn records).result = .ok ()) ∧
      (∀ e, insertFn (processRecords uaParse gen now decode records) = .error e →
        (handler uaParse gen now decode insertFn records).result = .error e)) ∧
    (∀ r rest, decode r = none →
      processRecords uaParse gen now decode (r :: rest)
        = processRecords uaParse (fun i => gen (i + 1)) now decode rest) ∧
    (∀ r rest ev, decode r = some ev →
      processRecords uaParse gen now decode (r :: rest)
        = transformToDatabaseEvent uaParse (gen 0) now ev
            :: processRecords uaParse (fun i => gen (i + 1)) now decode rest) := by
  refine ⟨?_, ?_, ?_, ?_⟩
  · intro h
    simp [handler, h]
  · intro h
    rcases hpr : processRecords uaParse gen now decode records with _ | ⟨a, l⟩
    · exact absurd hpr h
    · refine ⟨?_, ?_, ?_⟩
      · cases hins : insertFn (a :: l) <;> simp [handler, hpr, hins]
      · intro hok
        simp [handler, hpr, hok]
      · intro e herr
        simp [handler, hpr, herr]
  · intro r rest h
    simp [processRecords, h]
  · intro r rest ev h
    simp [processRecords, h]

/-- C4 witness: the batch `["bad", "ok"]` (one undecodable payload, one
good one) makes exactly one insert call carrying the one transformed
row and succeeds; the batch `["nope"]` with nothing decodable is a
no-op success even though the backend would fail. -/
theorem c4_handler_batch_witness :
    (handler uaParseNone gen0 7 decode0 (fun _ => .ok ()) ["bad", "ok"]).insertCalls
      = [[transformToDatabaseEvent uaParseNone "id1" 7 eventOk]] ∧
    (handler uaParseNone gen0 7 decode0 (fun _ => .ok ()) ["bad", "ok"]).result = .ok () ∧
    handler uaParseNone gen0 7 decode0 (fun _ => .error "db down") ["nope"]
      = { insertCalls := [], result := .ok () } := by
  refine ⟨?_, ?_, ?_⟩
  · exact (((c4_handler_batch uaParseNone gen0 7 decode0 (fun _ => .ok ()) ["bad", "ok"]).2.1
      (by decide)).1).trans (by decide)
  · exact ((c4_handler_batch uaParseNone gen0 7 decode0 (fun _ => .ok ()) ["bad", "ok"]).2.1
      (by decide)).2.1 rfl
  · exact (c4_handler_batch uaParseNone gen0 7 decode0 (fun _ => .error "db down")
      ["nope"]).1 (by decide)

/-- C2, counterexample.  The claim says the optional filter fields are
applied as exact-match predicates when present.  Both adapters bind only
`projectId`, `startDate` and `endDate`: with `eventType = "click"`
requested and a store holding a single `"pageview"` row, the claim
implies `totalEvents = 0`, yet both adapters count the row. -/
theorem c2_counterexample :
    filterClick.eventType = some "click" ∧
    baseRow.event_type ≠ some "click" ∧
    DSQLAdapter.getOverview [baseRow] filterClick
      = { totalEvents := 1, totalPageviews := 1, uniqueSessions := 0, uniqueVisitors := 0,
          uniqueUsers := 0 } ∧
    ClickHouseAdapter.getOverview [baseRow] filterClick
      = { totalEvents := 1, totalPageviews := 1, uniqueSessions := 0, uniqueVisitors := 0,
          uniqueUsers := 0 } := by
  exact ⟨rfl, by decide, by decide, by decide⟩

/-- C2, amended.  Every one of the seven read operations, in both
adapters, applies only the `projectId` exact match and the inclusive
`[startDate, endDate]` day range; the optional filter fields
`eventType`, `userId`, `sessionId`, `pagePath` and `country` are never
applied: two filters agreeing on project and date range produce
identical results for all seven operations. -/
theorem c2_amended_filters_ignored (store : List DatabaseEvent) (f g : QueryFilters)
    (limit : Nat) (hourly : Bool) (chDomain : String → String)
    (chQuantile : Rat → List Rat → Rat) (jext : Option String → String → Option String)
    (toNum : Option String → Rat)
    (hp : f.projectId = g.projectId) (hs : f.startDate = g.startDate)
    (he : f.endDate = g.endDate) :
    DSQLAdapter.getOverview store f = DSQLAdapter.getOverview store g ∧
    DSQLAdapter.getPageViews store f limit = DSQLAdapter.getPageViews store g limit ∧
    DSQLAdapter.getReferrers store f limit = DSQLAdapter.getReferrers store g limit ∧
    DSQLAdapter.getDeviceStats store f = DSQLAdapter.getDeviceStats store g ∧
    DSQLAdapter.getGeoStats store f limit = DSQLAdapter.getGeoStats store g limit ∧
    DSQLAdapter.getTimeSeries store f hourly = DSQLAdapter.getTimeSeries store g hourly ∧
    DSQLAdapter.getWebVitals jext toNum store f = DSQLAdapter.getWebVitals jext toNum store g ∧
    ClickHouseAdapter.getOverview store f = ClickHouseAdapter.getOverview store g ∧
    ClickHouseAdapter.getPageViews store f limit = ClickHouseAdapter.getPageViews store g limit ∧
    ClickHouseAdapter.getReferrers chDomain store f limit
      = ClickHouseAdapter.getReferrers chDomain store g limit ∧
    ClickHouseAdapter.getDeviceStats store f = ClickHouseAdapter.getDeviceStats store g ∧
    ClickHouseAdapter.getGeoStats store f limit = ClickHouseAdapter.getGeoStats store g limit ∧
    ClickHouseAdapter.getTimeSeries store f hourly
      = ClickHouseAdapter.getTimeSeries store g hourly ∧
    ClickHouseAdapter.getWebVitals chQuantile jext toNum store f
      = ClickHouseAdapter.getWebVitals chQuantile jext toNum store g := by
  have hb : dsqlBase f = dsqlBase g := by
    funext r
    cases ht : r.event_time <;> simp [dsqlBase, inDsqlRange, hp, hs, he, ht]
  have hb2 : chBase f = chBase g := by
    funext r
    cases ht : r.event_time <;> simp [chBase, inChRange, hp, hs, he, ht]
  refine ⟨?_, ?_, ?_, ?_, ?_, ?_, ?_, ?_, ?_, ?_, ?_, ?_, ?_, ?_⟩ <;>
    simp only [DSQLAdapter.getOverview, DSQLAdapter.getPageViews, DSQLAdapter.getReferrers,
      DSQLAdapter.getDeviceStats, DSQLAdapter.getGeoStats, DSQLAdapter.getTimeSeries,
      DSQLAdapter.getWebVitals, ClickHouseAdapter.getOverview, ClickHouseAdapter.getPageViews,
      ClickHouseAdapter.getReferrers, ClickHouseAdapter.getDeviceStats,
      ClickHouseAdapter.getGeoStats, ClickHouseAdapter.getTimeSeries,
      ClickHouseAdapter.getWebVitals, dsqlRows, chRows, hb, hb2]

/-- C2 witness: on a concrete one-row store, the filter requesting
`eventType = "click"` and the filter with no optional fields give the
same overview in both adapters. -/
theorem c2_amended_filters_ignored_witness :
    DSQLAdapter.getOverview [baseRow] filterClick
      = DSQLAdapter.getOverview [baseRow] filterPlain ∧
    ClickHouseAdapter.getOverview [baseRow] filterClick
      = ClickHouseAdapter.getOverview [baseRow] filterPlain :=
  ⟨(c2_amended_filters_ignored [baseRow] filterClick filterPlain 20 false (fun s => s)
      (fun _ _ => 0) (fun _ _ => none) (fun _ => 0) rfl rfl rfl).1,
   (c2_amended_filters_ignored [baseRow] filterClick filterPlain 20 false (fun s => s)
      (fun _ _ => 0) (fun _ _ => none) (fun _ => 0) rfl rfl rfl).2.2.2.2.2.2.2.1⟩

lemma sortDescBy_pairwise {α : Type} (measure : α → Nat) (l : List α) :
    List.Pairwise (fun a b => measure b ≤ measure a) (sortDescBy measure l) := by
  haveI : IsTotal α (fun a b => measure b ≤ measure a) := ⟨fun a b => le_total _ _⟩
  haveI : IsTrans α (fun a b => measure b ≤ measure a) :=
    ⟨fun _ _ _ hab hbc => le_trans hbc hab⟩
  exact List.sorted_insertionSort _ l

lemma sortDescBy_mem {α : Type} (measure : α → Nat) (l : List α) (a : α) :
    a ∈ sortDescBy measure l ↔ a ∈ l :=
  List.mem_insertionSort _

lemma referrersOfRows_sorted (domainFn : String → String) (rows : List DatabaseEvent)
    (limit : Nat) :
    List.Pairwise (fun a b : ReferrerStat => b.visits ≤ a.visits)
      (referrersOfRows domainFn rows limit) :=
  List.Pairwise.sublist (List.take_sublist _ _) (sortDescBy_pairwise _ _)

lemma referrersOfRows_length (domainFn : String → String) (rows : List DatabaseEvent)
    (limit : Nat) : (referrersOfRows domainFn rows limit).length ≤ limit := by
  simp only [referrersOfRows, List.length_take]
  omega

lemma referrersOfRows_mem (domainFn : String → String) (rows : List DatabaseEvent)
    (limit : Nat) (s : ReferrerStat) (hs : s ∈ referrersOfRows domainFn rows limit) :
    ∃ r ∈ rows, r.event_type = some "pageview" ∧
      ∃ p, r.page_referrer = some p ∧ p ≠ "" ∧ s.referrerDomain = domainFn p := by
  simp only [referrersOfRows] at hs
  have h1 := List.take_subset _ _ hs
  rw [sortDescBy_mem] at h1
  rcases List.mem_map.mp h1 with ⟨k, hk, hfn⟩
  rcases List.mem_map.mp (List.mem_dedup.mp hk) with ⟨pair, hpair, hfst⟩
  rcases List.mem_map.mp hpair with ⟨r, hr, hpaireq⟩
  rcases List.mem_filter.mp hr with ⟨hrrows, hcond⟩
  rcases hpv : r.page_referrer with _ | p
  · rw [hpv] at hcond
    simp at hcond
  · refine ⟨r, hrrows, ?_, p, hpv, ?_, ?_⟩
    · rw [hpv] at hcond
      simp at hcond
      exact hcond.1
    · rw [hpv] at hcond
      simp at hcond
      exact hcond.2
    · rw [← hfn, ← hfst, ← hpaireq]
      simp [hpv]

lemma referrersOfRows_skip (domainFn : String → String) (r : DatabaseEvent)
    (rows : List DatabaseEvent) (limit : Nat)
    (h : r.page_referrer = none ∨ r.page_referrer = some "") :
    referrersOfRows domainFn (r :: rows) limit = referrersOfRows domainFn rows limit := by
  have hcond : (r.event_type == some "pageview" &&
      match r.page_referrer with | some s => s != "" | none => false) = false := by
    rcases h with h | h <;> simp [h]
  simp only [referrersOfRows, List.filter_cons, hcond]
  simp

/-- C8, counterexample.  The claim says `getReferrers` never groups by
the full URL.  The DSQL `CASE` falls back to the whole `page_referrer`
whenever the value does not match `^https?://`: a pageview whose
referrer is the full URL `android-app://com.example/x` is grouped under
exactly that full URL. -/
theorem c8_counterexample :
    refRow.page_referrer = some "android-app://com.example/x" ∧
    DSQLAdapter.getReferrers [refRow] filterPlain 20
      = [{ referrerDomain := "android-app://com.example/x", visits := 1,
           uniqueSessions := 0 }] := by
  exact ⟨rfl, by decide⟩

/-- C8, amended.  `getReferrers` in both adapters excludes rows whose
referrer is null or empty (such a row never affects the result), orders
the groups by visit count descending and truncates to the limit; every
reported group key derives from a row in the filtered set: via
ClickHouse's `domain()` in the ClickHouse adapter, and in the DSQL
adapter via the host segment for referrers matching `^https?://` but
the *full stored referrer value* for all others. -/
theorem c8_referrers_amended (store : List DatabaseEvent) (f : QueryFilters) (limit : Nat)
    (chDomain : String → String) :
    (∀ r, (r.page_referrer = none ∨ r.page_referrer = some "") →
      DSQLAdapter.getReferrers (r :: store) f limit
        = DSQLAdapter.getReferrers store f limit) ∧
    List.Pairwise (fun a b : ReferrerStat => b.visits ≤ a.visits)
      (DSQLAdapter.getReferrers store f limit) ∧
    (DSQLAdapter.getReferrers store f limit).length ≤ limit ∧
    (∀ s ∈ DSQLAdapter.getReferrers store f limit,
      ∃ r ∈ store, dsqlBase f r = true ∧ r.event_type = some "pageview" ∧
        ∃ p, r.page_referrer = some p ∧ p ≠ "" ∧
          s.referrerDomain = referrerDomainDSQL p) ∧
    (∀ r, (r.page_referrer = none ∨ r.page_referrer = some "") →
      ClickHouseAdapter.getReferrers chDomain (r :: store) f limit
        = ClickHouseAdapter.getReferrers chDomain store f limit) ∧
    List.Pairwise (fun a b : ReferrerStat => b.visits ≤ a.visits)
      (ClickHouseAdapter.getReferrers chDomain store f limit) ∧
    (ClickHouseAdapter.getReferrers chDomain store f limit).length ≤ limit ∧
    (∀ s ∈ ClickHouseAdapter.getReferrers chDomain store f limit,
      ∃ r ∈ store, chBase f r = true ∧ r.event_type = some "pageview" ∧
        ∃ p, r.page_referrer = some p ∧ p ≠ "" ∧ s.referrerDomain = chDomain p) ∧
    (∀ p : String, p.toList.take 7 ≠ "http://".toList →
      p.toList.take 8 ≠ "https://".toList → referrerDomainDSQL p = p) := by
  refine ⟨?_, ?_, ?_, ?_, ?_, ?_, ?_, ?_, ?_⟩
  · intro r h
    simp only [DSQLAdapter.getReferrers, dsqlRows, List.filter_cons]
    cases hb : dsqlBase f r
    · simp
    · simp [referrersOfRows_skip referrerDomainDSQL r _ limit h]
  · exact referrersOfRows_sorted _ _ _
  · exact referrersOfRows_length _ _ _
  · intro s hs
    rcases referrersOfRows_mem _ _ _ s hs with ⟨r, hr, hty, p, hp, hpne, hdom⟩
    rcases List.mem_filter.mp hr with ⟨hrstore, hbase⟩
    exact ⟨r, hrstore, hbase, hty, p, hp, hpne, hdom⟩
  · intro r h
    simp only [ClickHouseAdapter.getReferrers, chRows, List.filter_cons]
    cases hb : chBase f r
    · simp
    · simp [referrersOfRows_skip chDomain r _ limit h]
  · exact referrersOfRows_sorted _ _ _
  · exact referrersOfRows_length _ _ _
  · intro s hs
    rcases referrersOfRows_mem _ _ _ s hs with ⟨r, hr, hty, p, hp, hpne, hdom⟩
    rcases List.mem_filter.mp hr with ⟨hrstore, hbase⟩
    exact ⟨r, hrstore, hbase, hty, p, hp, hpne, hdom⟩
  · intro p h1 h2
    simp only [referrerDomainDSQL]
    rw [if_neg h1, if_neg h2]

/-- C8 witness: prepending a null-referrer row leaves the concrete
result unchanged, and the result respects the limit. -/
theorem c8_referrers_amended_witness :
    DSQLAdapter.getReferrers (baseRow :: [refRow]) filterPlain 20
      = DSQLAdapter.getReferrers [refRow] filterPlain 20 ∧
    (DSQLAdapter.getReferrers [refRow] filterPlain 20).length ≤ 20 :=
  ⟨(c8_referrers_amended [refRow] filterPlain 20 (fun s => s)).1 baseRow (Or.inl rfl),
   (c8_referrers_amended [refRow] filterPlain 20 (fun s => s)).2.2.1⟩
